import Mathlib

/-!
Verification of the Pupil Labs UVC capture subsystem (hermes-pupillabs).

Shallow embedding of:
  - the coordinator frame parsing in `producer.py`
    (`PupilUvcProducer._parse_first_frame`, `_parse_frame`, `_process_data`,
    `_connect`, with the `_start_index` baseline table);
  - the worker setup in `producer.py` (`_run_capture`: capture-mode scan,
    control application, pixel-format dispatch) and in `handler.py`
    (`PupilUvcHandler._restart_cap_device`);
  - the per-frame worker step in `producer.py` (`_get_frame`) and in
    `handler.py` (`PupilUvcHandler._get_frame`).

Floating point timestamps (`frame.timestamp`, `toa_s`) are carried as
uninterpreted integer values: no claim performs arithmetic on them. Python
integers are modelled as `Int` (exact subtraction), exceptions as
`Option` / `Except` results.
-/

/-- Modelled from the spec: `VideoFormatEnum` is declared in
`hermes.utils.types`, which is outside this source tree. The spec names
three recognized pixel formats (compressed MJPEG and decoded BGR / YUV
planes); `other n` stands for any further, unrecognized enum value. -/
inductive VideoFormatEnum
  | MJPEG
  | BGR
  | YUV
  | other (n : Nat)
  deriving DecidableEq, Repr

/-- Payload extracted from a frame by the chosen buffer function:
the encoded jpeg buffer as bytes, or one of the two decoded planes. -/
inductive Payload
  | jpegBytes (b : List Nat)
  | bgrPlane (p : Nat)
  | yuvPlane (p : Nat)
  deriving DecidableEq, Repr

/-- A frame object as returned by `cap.get_frame` of the uvc driver:
it carries a device timestamp, a device sequence number (`index`) and the
raw buffers in the three layouts the code reads. -/
structure UvcFrame where
  timestamp : Int
  index : Int
  jpeg_buffer : List Nat
  bgr : Nat
  yuv : Nat
  deriving DecidableEq, Repr

/-- Buffer-extraction dispatch selected once at worker startup from the
configured pixel format (`producer.py` lines 101-108, identically
`handler.py` lines 57-64): MJPEG takes the jpeg buffer as bytes, BGR and
YUV take the corresponding decoded plane, and every other format value
yields a function returning no payload. -/
def getBufferFn (fmt : VideoFormatEnum) : UvcFrame → Option Payload :=
  match fmt with
  | .MJPEG => fun frame => some (.jpegBytes frame.jpeg_buffer)
  | .BGR => fun frame => some (.bgrPlane frame.bgr)
  | .YUV => fun frame => some (.yuvPlane frame.yuv)
  | .other _ => fun _ => none

/-- One record placed on the transport queue by a worker:
`(camera_name, {timestamp, index, data}, toa_s)` as built in `_get_frame`. -/
structure QueueMsg where
  camera : String
  timestamp : Int
  index : Int
  data : Option Payload
  toa_s : Int
  deriving DecidableEq, Repr

/-- The per-camera output record built by `_parse_first_frame` and
`_parse_frame`: the value of `output[camera_name]`. -/
structure FrameOut where
  frame_timestamp : Int
  frame_index : Int
  frame_sequence_id : Int
  frame : Option Payload × Bool × Int
  toa_s : Int
  deriving DecidableEq, Repr

/-- Read access `self._start_index[camera_name]` on the baseline table,
modelled as an association list; `none` is a Python `KeyError`. -/
def lookupStart (s : List (String × Option Int)) (cam : String) :
    Option (Option Int) :=
  (s.find? (fun p => p.1 == cam)).map (fun p => p.2)

/-- Write access `self._start_index[camera_name] = v` on the baseline
table: updates the entries whose key is `cam`, keeps every other entry. -/
def setStart (s : List (String × Option Int)) (cam : String) (v : Int) :
    List (String × Option Int) :=
  s.map (fun p => if p.1 == cam then (p.1, some v) else p)

/-- The test `all(v is not None for v in self._start_index.values())`. -/
def allSet (s : List (String × Option Int)) : Bool :=
  s.all (fun p => p.2.isSome)

/-- Coordinator state relevant to frame parsing: the `_start_index`
baseline table and which parser `_parse_frame_fn` currently points to
(`firstPhase = true` means `_parse_first_frame`). -/
structure CoordState where
  start_index : List (String × Option Int)
  firstPhase : Bool
  deriving DecidableEq, Repr

/-- Source `PupilUvcProducer.__init__` lines 140-143: every camera of the
mapping gets a `None` baseline entry, and `_parse_frame_fn` is set to
`_parse_first_frame`. -/
def initState (cams : List String) : CoordState :=
  { start_index := cams.map (fun c => (c, none)), firstPhase := true }

/-- Source `PupilUvcProducer._parse_first_frame` (producer.py lines 211-231).
A missing dict key is a `KeyError`, modelled as `none`. On the first
frame of a camera the baseline is recorded and the index is 0; otherwise
the index is the device sequence minus the recorded baseline. When all
baselines are set, `_parse_frame_fn` switches to `_parse_frame`. -/
def parse_first_frame (st : CoordState) (msg : QueueMsg) :
    Option (CoordState × (String × FrameOut)) :=
  match lookupStart st.start_index msg.camera with
  | none => none
  | some none =>
    let s1 := setStart st.start_index msg.camera msg.index
    some (⟨s1, if allSet s1 then false else st.firstPhase⟩, (msg.camera,
      { frame_timestamp := msg.timestamp
        frame_index := 0
        frame_sequence_id := msg.index
        frame := (msg.data, false, 0)
        toa_s := msg.toa_s }))
  | some (some b) =>
    some (⟨st.start_index,
        if allSet st.start_index then false else st.firstPhase⟩, (msg.camera,
      { frame_timestamp := msg.timestamp
        frame_index := msg.index - b
        frame_sequence_id := msg.index
        frame := (msg.data, false, msg.index - b)
        toa_s := msg.toa_s }))

/-- Source `PupilUvcProducer._parse_frame` (producer.py lines 233-246).
A missing key is a `KeyError`; a still-unset (`None`) baseline would make
the Python subtraction raise a `TypeError`; both are modelled as `none`. -/
def parse_frame (st : CoordState) (msg : QueueMsg) :
    Option (CoordState × (String × FrameOut)) :=
  match lookupStart st.start_index msg.camera with
  | none => none
  | some none => none
  | some (some b) =>
    some (st, (msg.camera,
      { frame_timestamp := msg.timestamp
        frame_index := msg.index - b
        frame_sequence_id := msg.index
        frame := (msg.data, false, msg.index - b)
        toa_s := msg.toa_s }))

/-- One call of `self._parse_frame_fn(msg)`: dispatches on which parser
the coordinator currently holds. -/
def coordStep (st : CoordState) (msg : QueueMsg) :
    Option (CoordState × (String × FrameOut)) :=
  if st.firstPhase then parse_first_frame st msg else parse_frame st msg

/-- Repeated `_process_data` parsing over a list of dequeued messages,
collecting the published records; an exception stops the run. -/
def coordRun (st : CoordState) :
    List QueueMsg → CoordState × List (String × FrameOut)
  | [] => (st, [])
  | m :: rest =>
    match coordStep st m with
    | none => (st, [])
    | some (st1, out) => ((coordRun st1 rest).1, out :: (coordRun st1 rest).2)

/-- Device sequence numbers of the messages of camera `c`, in order. -/
def camIndices (c : String) (msgs : List QueueMsg) : List Int :=
  (msgs.filter (fun m => m.camera == c)).map (fun m => m.index)

/-- Emitted `frame_index` values of the output records of camera `c`. -/
def camOutIndices (c : String) (outs : List (String × FrameOut)) : List Int :=
  (outs.filter (fun p => p.1 == c)).map (fun p => p.2.frame_index)

/-- Rebasement of a device-sequence list against its first element:
the first frame gets index 0, each later one its distance to the first. -/
def rebase : List Int → List Int
  | [] => []
  | b :: xs => 0 :: xs.map (fun x => x - b)

/-- Expected per-camera output indices given the baseline the coordinator
holds for that camera before the run: an already-recorded baseline `b`
shifts every index by `b`; otherwise the run itself rebases. -/
def expectedIndices (base : Option (Option Int)) (xs : List Int) : List Int :=
  match base with
  | some (some b) => xs.map (fun x => x - b)
  | _ => rebase xs

theorem expectedIndices_nil (base : Option (Option Int)) :
    expectedIndices base [] = [] := by
  rcases base with _ | b
  · rfl
  · rcases b with _ | b2 <;> rfl

theorem camIndices_cons (c : String) (m : QueueMsg) (l : List QueueMsg) :
    camIndices c (m :: l) =
      if m.camera = c then m.index :: camIndices c l else camIndices c l := by
  simp only [camIndices, List.filter_cons]
  by_cases h : m.camera = c <;> simp [h]

theorem camOutIndices_cons (c : String) (p : String × FrameOut)
    (l : List (String × FrameOut)) :
    camOutIndices c (p :: l) =
      if p.1 = c then p.2.frame_index :: camOutIndices c l
      else camOutIndices c l := by
  simp only [camOutIndices, List.filter_cons]
  by_cases h : p.1 = c <;> simp [h]

theorem find?_setStart (cam c : String) (v : Int)
    (s : List (String × Option Int)) :
    (setStart s cam v).find? (fun p => p.1 == c) =
      (s.find? (fun p => p.1 == c)).map
        (fun p => if p.1 == cam then (p.1, some v) else p) := by
  unfold setStart
  rw [List.find?_map]
  have hp : ((fun p : String × Option Int => p.1 == c) ∘
      (fun p : String × Option Int => if p.1 == cam then (p.1, some v) else p))
      = (fun p : String × Option Int => p.1 == c) := by
    funext p
    by_cases h : p.1 = cam <;> simp [h]
  rw [hp]

theorem lookupStart_setStart_isSome (cam c : String) (v : Int)
    (s : List (String × Option Int)) :
    (lookupStart (setStart s cam v) c).isSome = (lookupStart s c).isSome := by
  simp [lookupStart, find?_setStart]

theorem lookupStart_setStart_self (cam : String) (v : Int)
    (s : List (String × Option Int))
    (h : (lookupStart s cam).isSome = true) :
    lookupStart (setStart s cam v) cam = some (some v) := by
  unfold lookupStart at h ⊢
  rw [find?_setStart]
  cases hf : s.find? (fun p => p.1 == cam) with
  | none => rw [hf] at h; simp at h
  | some p =>
    have hp := List.find?_some hf
    have hpc : p.1 = cam := by simpa using hp
    simp [hpc]

theorem lookupStart_setStart_ne (cam c : String) (v : Int) (hne : c ≠ cam)
    (s : List (String × Option Int)) :
    lookupStart (setStart s cam v) c = lookupStart s c := by
  unfold lookupStart
  rw [find?_setStart]
  cases hf : s.find? (fun p => p.1 == c) with
  | none => simp
  | some p =>
    have hp := List.find?_some hf
    have hpc : p.1 = c := by simpa using hp
    simp [hpc, hne]

theorem allSet_lookup {s : List (String × Option Int)} {c : String}
    {curr : Option Int} (h : allSet s = true)
    (hl : lookupStart s c = some curr) : ∃ b, curr = some b := by
  unfold lookupStart at hl
  cases hf : s.find? (fun p => p.1 == c) with
  | none => rw [hf] at hl; simp at hl
  | some p =>
    rw [hf] at hl
    simp only [Option.map_some'] at hl
    have h2 : p.2 = curr := by injection hl
    have hmem := List.mem_of_find?_eq_some hf
    have hsome := (List.all_eq_true.mp h) p hmem
    rw [← h2]
    exact Option.isSome_iff_exists.mp hsome

theorem coordRun_cons_some (st st1 : CoordState) (m : QueueMsg)
    (out : String × FrameOut) (rest : List QueueMsg)
    (h : coordStep st m = some (st1, out)) :
    coordRun st (m :: rest) =
      ((coordRun st1 rest).1, out :: (coordRun st1 rest).2) := by
  simp [coordRun, h]

theorem coordStep_lookup_none (st : CoordState) (m : QueueMsg)
    (hp : st.firstPhase = true)
    (hl : lookupStart st.start_index m.camera = some none) :
    coordStep st m = some
      (⟨setStart st.start_index m.camera m.index,
        if allSet (setStart st.start_index m.camera m.index) then false
        else st.firstPhase⟩,
       (m.camera,
        { frame_timestamp := m.timestamp
          frame_index := 0
          frame_sequence_id := m.index
          frame := (m.data, false, 0)
          toa_s := m.toa_s })) := by
  simp [coordStep, hp, parse_first_frame, hl]

theorem coordStep_lookup_some (st : CoordState) (m : QueueMsg) (b : Int)
    (hl : lookupStart st.start_index m.camera = some (some b)) :
    coordStep st m = some
      (⟨st.start_index,
        if st.firstPhase then
          (if allSet st.start_index then false else st.firstPhase)
        else st.firstPhase⟩,
       (m.camera,
        { frame_timestamp := m.timestamp
          frame_index := m.index - b
          frame_sequence_id := m.index
          frame := (m.data, false, m.index - b)
          toa_s := m.toa_s })) := by
  obtain ⟨si, fp⟩ := st
  cases fp
  · simp only [coordStep] at hl ⊢
    simp [parse_frame, hl]
  · simp only [coordStep] at hl ⊢
    simp [parse_first_frame, hl]

theorem coordRun_cam (msgs : List QueueMsg) :
    ∀ st : CoordState,
      (∀ m ∈ msgs, (lookupStart st.start_index m.camera).isSome = true) →
      (st.firstPhase = false → allSet st.start_index = true) →
      ∀ c, camOutIndices c (coordRun st msgs).2 =
        expectedIndices (lookupStart st.start_index c) (camIndices c msgs) := by
  induction msgs with
  | nil =>
    intro st _ _ c
    simp [coordRun, camOutIndices, camIndices, expectedIndices_nil]
  | cons m rest ih =>
    intro st hkeys hinv c
    have hm : (lookupStart st.start_index m.camera).isSome = true :=
      hkeys m (List.mem_cons_self m rest)
    obtain ⟨curr, hl⟩ := Option.isSome_iff_exists.mp hm
    have hkr : ∀ m2 ∈ rest,
        (lookupStart st.start_index m2.camera).isSome = true :=
      fun m2 h2 => hkeys m2 (List.mem_cons_of_mem m h2)
    rcases curr with _ | b
    · -- this is the first frame of this camera
      have hp : st.firstPhase = true := by
        by_contra hq
        have hfalse : st.firstPhase = false := by
          revert hq; cases st.firstPhase <;> simp
        obtain ⟨b, hb⟩ := allSet_lookup (hinv hfalse) hl
        exact Option.noConfusion hb
      have hstep := coordStep_lookup_none st m hp hl
      rw [coordRun_cons_some _ _ _ _ _ hstep]
      rw [camOutIndices_cons, camIndices_cons]
      have hih := ih
        ⟨setStart st.start_index m.camera m.index,
          if allSet (setStart st.start_index m.camera m.index) then false
          else st.firstPhase⟩
        (by
          intro m2 h2
          show (lookupStart (setStart st.start_index m.camera m.index)
            m2.camera).isSome = true
          rw [lookupStart_setStart_isSome]
          exact hkr m2 h2)
        (by
          intro hfp
          show allSet (setStart st.start_index m.camera m.index) = true
          by_cases hall : allSet (setStart st.start_index m.camera m.index)
            = true
          · exact hall
          · exfalso
            simp only [hall] at hfp
            rw [if_neg (by simp [hall])] at hfp
            rw [hp] at hfp
            exact Bool.noConfusion hfp)
      by_cases hc : m.camera = c
      · subst hc
        rw [if_pos rfl, if_pos rfl, hl]
        rw [hih m.camera]
        rw [lookupStart_setStart_self m.camera m.index st.start_index hm]
        simp [expectedIndices, rebase]
      · rw [if_neg hc, if_neg hc]
        rw [hih c]
        rw [lookupStart_setStart_ne m.camera c m.index (fun h => hc h.symm)]
    · -- baseline already recorded for this camera
      have hstep := coordStep_lookup_some st m b hl
      rw [coordRun_cons_some _ _ _ _ _ hstep]
      rw [camOutIndices_cons, camIndices_cons]
      have hih := ih
        ⟨st.start_index,
          if st.firstPhase then
            (if allSet st.start_index then false else st.firstPhase)
          else st.firstPhase⟩
        (fun m2 h2 => hkr m2 h2)
        (by
          intro hfp
          show allSet st.start_index = true
          by_cases hp : st.firstPhase = true
          · by_cases hall : allSet st.start_index = true
            · exact hall
            · exfalso
              simp only [hp, if_true] at hfp
              rw [if_neg (by simp [hall])] at hfp
              exact Bool.noConfusion hfp
          · have hp2 : st.firstPhase = false := by
              revert hp; cases st.firstPhase <;> simp
            exact hinv hp2)
      by_cases hc : m.camera = c
      · subst hc
        rw [if_pos rfl, if_pos rfl, hl]
        rw [hih m.camera, hl]
        simp [expectedIndices]
      · rw [if_neg hc, if_neg hc]
        exact hih c

theorem lookupStart_initState (cams : List String) (c : String) :
    lookupStart (initState cams).start_index c =
      if c ∈ cams then some none else none := by
  induction cams with
  | nil => simp [initState, lookupStart]
  | cons a rest ihc =>
    by_cases ha : a = c
    · subst ha
      simp [initState, lookupStart, List.find?_cons]
    · have hca : ¬c = a := fun h => ha h.symm
      simp only [initState, List.map_cons, lookupStart, List.find?_cons] at ihc ⊢
      have hb : ((a, (none : Option Int)).1 == c) = false := by
        simpa using ha
      rw [hb]
      rw [ihc]
      simp [List.mem_cons, hca]

/-- The expected output of the run on a fresh coordinator is the rebased
sequence, whatever the baseline-table entry of the camera is at start. -/
theorem expectedIndices_initState (cams : List String) (c : String)
    (xs : List Int) :
    expectedIndices (lookupStart (initState cams).start_index c) xs
      = rebase xs := by
  rw [lookupStart_initState]
  by_cases h : c ∈ cams <;> simp [h, expectedIndices]

/-- Concrete scenario of the spec: camera A delivers device sequences
100, 101, 102, 105 and camera B delivers 9000, 9001, interleaved on the
shared transport queue. -/
def scenarioMsgs : List QueueMsg :=
  [⟨"A", 10, 100, none, 1⟩, ⟨"A", 11, 101, none, 2⟩,
   ⟨"B", 20, 9000, none, 3⟩, ⟨"A", 12, 102, none, 4⟩,
   ⟨"B", 21, 9001, none, 5⟩, ⟨"A", 13, 105, none, 6⟩]

/-- C1: for every camera the parsing functions compute `frame_index` as
the device sequence minus the baseline recorded from the first frame of
that camera (first frame gets 0), and on the concrete two-camera
scenario (A: 100,101,102,105; B: 9000,9001) the emitted `frame_index`
sequences are exactly A: 0,1,2,5 and B: 0,1. -/
theorem frame_index_rebasement :
    (∀ (cams : List String) (msgs : List QueueMsg),
      (∀ m ∈ msgs, m.camera ∈ cams) →
      ∀ c, camOutIndices c (coordRun (initState cams) msgs).2
        = rebase (camIndices c msgs))
    ∧ camOutIndices "A" (coordRun (initState ["A", "B"]) scenarioMsgs).2
        = [0, 1, 2, 5]
    ∧ camOutIndices "B" (coordRun (initState ["A", "B"]) scenarioMsgs).2
        = [0, 1] := by
  refine ⟨?_, ?_, ?_⟩
  · intro cams msgs hmem c
    rw [coordRun_cam msgs (initState cams)
      (by
        intro m hm
        rw [lookupStart_initState]
        simp [hmem m hm])
      (by intro h; simp [initState] at h)
      c]
    exact expectedIndices_initState cams c (camIndices c msgs)
  · decide
  · decide

/-- Closed witness of C1 at a concrete input. -/
theorem frame_index_rebasement_witness :
    camOutIndices "A" (coordRun (initState ["A"]) [⟨"A", 7, 100, none, 3⟩]).2
      = rebase (camIndices "A" [⟨"A", 7, 100, none, 3⟩]) :=
  frame_index_rebasement.1 ["A"] [⟨"A", 7, 100, none, 3⟩] (by decide) "A"

theorem coordStep_start_index (st st1 : CoordState) (msg : QueueMsg)
    (out : String × FrameOut) (h : coordStep st msg = some (st1, out)) :
    st1.start_index = st.start_index ∨
    (lookupStart st.start_index msg.camera = some none ∧
      st1.start_index = setStart st.start_index msg.camera msg.index) := by
  cases hl : lookupStart st.start_index msg.camera with
  | none =>
    exfalso
    by_cases hp : st.firstPhase = true
    · simp [coordStep, hp, parse_first_frame, hl] at h
    · have hp2 : st.firstPhase = false := by
        revert hp; cases st.firstPhase <;> simp
      simp [coordStep, hp2, parse_frame, hl] at h
  | some curr =>
    cases curr with
    | none =>
      by_cases hp : st.firstPhase = true
      · have hstep := coordStep_lookup_none st msg hp hl
        rw [hstep] at h
        simp only [Option.some.injEq, Prod.mk.injEq] at h
        obtain ⟨h1, _⟩ := h
        right
        exact ⟨rfl, by rw [← h1]⟩
      · exfalso
        have hp2 : st.firstPhase = false := by
          revert hp; cases st.firstPhase <;> simp
        simp [coordStep, hp2, parse_frame, hl] at h
    | some b =>
      have hstep := coordStep_lookup_some st msg b hl
      rw [hstep] at h
      simp only [Option.some.injEq, Prod.mk.injEq] at h
      obtain ⟨h1, _⟩ := h
      left
      rw [← h1]

/-- C2: per parsing step only the entry of the camera of the message can
change in the baseline table, an already-recorded baseline is never
overwritten by any later frame, the table keeps exactly the one entry
per camera created at initialization, and two cameras with unrelated
device-sequence ranges both start their local index at 0. -/
theorem baseline_write_once :
    (∀ (st st1 : CoordState) (msg : QueueMsg) (out : String × FrameOut),
      coordStep st msg = some (st1, out) →
      (∀ c b, lookupStart st.start_index c = some (some b) →
        lookupStart st1.start_index c = some (some b)) ∧
      (∀ c, c ≠ msg.camera →
        lookupStart st1.start_index c = lookupStart st.start_index c))
    ∧ (∀ cams : List String,
        (initState cams).start_index.map Prod.fst = cams)
    ∧ camOutIndices "A" (coordRun (initState ["A", "B"])
        [⟨"A", 10, 100, none, 1⟩, ⟨"B", 11, 9000, none, 2⟩]).2 = [0]
    ∧ camOutIndices "B" (coordRun (initState ["A", "B"])
        [⟨"A", 10, 100, none, 1⟩, ⟨"B", 11, 9000, none, 2⟩]).2 = [0] := by
  refine ⟨?_, ?_, by decide, by decide⟩
  · intro st st1 msg out h
    rcases coordStep_start_index st st1 msg out h with h0 | ⟨hl, hset⟩
    · exact ⟨fun c b hcb => by rw [h0]; exact hcb, fun c _ => by rw [h0]⟩
    · constructor
      · intro c b hcb
        have hc : c ≠ msg.camera := by
          intro he
          rw [he, hl] at hcb
          exact Option.noConfusion (Option.some.inj hcb)
        rw [hset, lookupStart_setStart_ne msg.camera c msg.index hc]
        exact hcb
      · intro c hc
        rw [hset, lookupStart_setStart_ne msg.camera c msg.index hc]
  · intro cams
    simp only [initState, List.map_map]
    have h : (Prod.fst ∘ fun c : String => (c, (none : Option Int))) = id := by
      funext c
      rfl
    rw [h, List.map_id]

/-- Closed witness of C2: after camera B delivers its first frame, the
already-recorded baseline of camera A is unchanged. -/
theorem baseline_write_once_witness :
    lookupStart
      (⟨[("A", some 5), ("B", some 9)], false⟩ : CoordState).start_index "A"
      = some (some 5) :=
  ((baseline_write_once.1
      ⟨[("A", some 5), ("B", none)], true⟩
      ⟨[("A", some 5), ("B", some 9)], false⟩
      ⟨"B", 1, 9, none, 2⟩
      ("B", ⟨1, 0, 9, (none, false, 0), 2⟩)
      (by decide)).1) "A" 5 (by decide)

/-- C10: when the baseline of the camera of the message is already
recorded, `_parse_first_frame` and `_parse_frame` build exactly the same
output record (same frame_timestamp, frame_index, frame_sequence_id,
frame tuple and toa_s), so the switch of `_parse_frame_fn` from the
first-frame parser to the steady-state parser never changes the emitted
stream. -/
theorem parse_switch_equiv (st : CoordState) (msg : QueueMsg) (b : Int)
    (h : lookupStart st.start_index msg.camera = some (some b)) :
    (parse_first_frame st msg).map (fun r => r.2)
      = (parse_frame st msg).map (fun r => r.2) := by
  simp [parse_first_frame, parse_frame, h]

/-- Closed witness of C10 at a concrete input. -/
theorem parse_switch_equiv_witness :
    (parse_first_frame ⟨[("A", some 5)], true⟩ ⟨"A", 7, 9, none, 3⟩).map
        (fun r => r.2)
      = (parse_frame ⟨[("A", some 5)], true⟩ ⟨"A", 7, 9, none, 3⟩).map
        (fun r => r.2) :=
  parse_switch_equiv ⟨[("A", some 5)], true⟩ ⟨"A", 7, 9, none, 3⟩ 5
    (by decide)

/-- Static camera configuration relevant to device setup
(`camera_spec`): `resolution` is (height, width) as configured. -/
structure CameraSpec where
  resolution : Nat × Nat
  fps : Nat
  deriving DecidableEq, Repr

/-- One capture mode advertised by the device (`cap.available_modes`). -/
structure CaptureMode where
  width : Nat
  height : Nat
  fps : Nat
  deriving DecidableEq, Repr

/-- The match test of the mode-selection loop (producer.py lines 81-85,
handler.py lines 83-87): width against `resolution[1]`, height against
`resolution[0]`, fps against the configured rate. -/
def modeMatches (spec : CameraSpec) (mode : CaptureMode) : Bool :=
  mode.width == spec.resolution.2 && mode.height == spec.resolution.1
    && mode.fps == spec.fps

/-- A device control (`cap.controls` entry): a display name and the set
of values an assignment to `ctrl.value` accepts without raising. -/
structure UvcControl where
  display_name : String
  accepts : Int → Bool

/-- The dict comprehension building `controls_by_name` followed by
`controls_by_name.get(ctrl_name)`: among the controls carrying the given
display name the last one wins; `none` when the name is absent. -/
def controlsByName (controls : List UvcControl) (name : String) :
    Option UvcControl :=
  (controls.filter (fun c => c.display_name == name)).getLast?

/-- The mode-selection loop of `_run_capture` (producer.py lines 80-89)
and `_restart_cap_device` (handler.py lines 82-91): walks the available
modes, breaks at the first exact match after setting `frame_mode`, and
(re)binds `controls_by_name` on every earlier, non-matching iteration.
State carried: the selected mode (`none` keeps the device default) and
whether `controls_by_name` has been assigned. -/
def scanModesAux (spec : CameraSpec) :
    List CaptureMode → Option CaptureMode → Bool →
      Option CaptureMode × Bool
  | [], fm, d => (fm, d)
  | m :: rest, fm, d =>
    if modeMatches spec m then (some m, d)
    else scanModesAux spec rest fm true

/-- The full mode scan as entered at device setup: no mode selected yet
and `controls_by_name` not yet assigned. -/
def scanModes (spec : CameraSpec) (modes : List CaptureMode) :
    Option CaptureMode × Bool :=
  scanModesAux spec modes none false

/-- Result of one configured override in the `uvc_controls` loop of
`_run_capture` (producer.py lines 92-99): either the assignment took
effect, or the failure was printed and the loop continued. -/
inductive CtrlOutcome
  | applied (name : String) (value : Int)
  | logged (name : String) (value : Int)
  deriving DecidableEq, Repr

/-- The control-override loop of `_run_capture`: a missing name leaves
`ctrl` as `None` so the assignment raises inside the `try`, which is
caught and logged; a rejecting control is likewise logged; every other
override is applied; the loop always completes. -/
def applyControls (controls : List UvcControl) :
    List (String × Int) → List CtrlOutcome
  | [] => []
  | (name, v) :: rest =>
    match controlsByName controls name with
    | none => .logged name v :: applyControls controls rest
    | some c =>
      if c.accepts v then .applied name v :: applyControls controls rest
      else .logged name v :: applyControls controls rest

inductive SetupError
  | nameError
  deriving DecidableEq, Repr

/-- Device setup portion of `_run_capture` (producer.py lines 80-99):
the mode scan, then the control loop. When the scan never bound
`controls_by_name` and at least one override is configured, the first
loop iteration raises `NameError`, which nothing in `_run_capture`
catches. -/
def run_capture_setup (spec : CameraSpec) (modes : List CaptureMode)
    (controls : List UvcControl) (overrides : List (String × Int)) :
    Except SetupError (Option CaptureMode × List CtrlOutcome) :=
  let s := scanModes spec modes
  if s.2 then .ok (s.1, applyControls controls overrides)
  else if overrides.isEmpty then .ok (s.1, [])
  else .error .nameError

/-- The control-override loop of `_restart_cap_device` (handler.py lines
94-99). The failure log there calls `print(..., file=True)`; printing to
the object `True` raises `AttributeError` inside the `except` handler,
so the first failing override aborts the rest of the loop. Returns the
overrides applied before any abort and whether an exception escaped. -/
def applyControlsHandler (controls : List UvcControl) :
    List (String × Int) → List (String × Int) × Bool
  | [] => ([], false)
  | (name, v) :: rest =>
    match controlsByName controls name with
    | none => ([], true)
    | some c =>
      if c.accepts v then
        ((name, v) :: (applyControlsHandler controls rest).1,
          (applyControlsHandler controls rest).2)
      else ([], true)

/-- Outcome of `PupilUvcHandler._restart_cap_device` (handler.py lines
75-101): either the `try` body ran to its end, or some exception was
caught by the enclosing handler, which sleeps one second and skips
whatever was left of setup. -/
inductive HandlerSetup
  | ok (frame_mode : Option CaptureMode) (applied : List (String × Int))
  | caughtSleep (applied : List (String × Int))
  deriving DecidableEq, Repr

/-- Source `PupilUvcHandler._restart_cap_device` given a successfully opened
device: the mode scan, then the handler control loop; any exception
(the `NameError` on an unbound `controls_by_name` as well as the
`AttributeError` raised by the failure log) lands in the outer `except`,
which sleeps one second and returns with setup incomplete. -/
def restart_cap_device (spec : CameraSpec) (modes : List CaptureMode)
    (controls : List UvcControl) (overrides : List (String × Int)) :
    HandlerSetup :=
  let s := scanModes spec modes
  if s.2 then
    let r := applyControlsHandler controls overrides
    if r.2 then .caughtSleep r.1 else .ok s.1 r.1
  else if overrides.isEmpty then .ok s.1 []
  else .caughtSleep []

theorem scanModesAux_fst (spec : CameraSpec) :
    ∀ (modes : List CaptureMode) (fm : Option CaptureMode) (d : Bool),
      (scanModesAux spec modes fm d).1 =
        match modes.find? (modeMatches spec) with
        | some m => some m
        | none => fm
  | [], fm, d => rfl
  | m :: rest, fm, d => by
    cases h : modeMatches spec m
    · simpa [scanModesAux, h, List.find?_cons] using
        scanModesAux_fst spec rest fm true
    · simp [scanModesAux, h, List.find?_cons]

theorem scanModesAux_snd_true (spec : CameraSpec) :
    ∀ (modes : List CaptureMode) (fm : Option CaptureMode),
      (scanModesAux spec modes fm true).2 = true
  | [], _ => rfl
  | m :: rest, fm => by
    cases h : modeMatches spec m
    · simpa [scanModesAux, h] using scanModesAux_snd_true spec rest fm
    · simp [scanModesAux, h]

/-- C6: the capture-mode scan selects the first mode matching the
configured (height, width, frame rate) exactly and stops there; when no
mode matches it completes with no mode selected (the device default
stays) and, the mode list being nonempty, setup continues into the
control loop instead of aborting. -/
theorem mode_scan_first_match :
    (∀ (spec : CameraSpec) (modes : List CaptureMode),
      (scanModes spec modes).1 = modes.find? (modeMatches spec))
    ∧ (∀ (spec : CameraSpec) (modes : List CaptureMode)
        (controls : List UvcControl) (overrides : List (String × Int)),
        modes.find? (modeMatches spec) = none → modes ≠ [] →
        run_capture_setup spec modes controls overrides
          = .ok (none, applyControls controls overrides)) := by
  constructor
  · intro spec modes
    rw [scanModes, scanModesAux_fst]
    cases modes.find? (modeMatches spec) <;> rfl
  · intro spec modes controls overrides hfind hne
    cases modes with
    | nil => exact absurd rfl hne
    | cons m rest =>
      have hm : modeMatches spec m = false := by
        cases h : modeMatches spec m
        · rfl
        · rw [List.find?_cons, h] at hfind
          exact Option.noConfusion hfind
      have hrest : rest.find? (modeMatches spec) = none := by
        rw [List.find?_cons, hm] at hfind
        exact hfind
      have hs : scanModes spec (m :: rest) = (none, true) := by
        have h1 : (scanModes spec (m :: rest)).1 = none := by
          rw [scanModes, scanModesAux_fst]
          rw [List.find?_cons, hm, hrest]
        have h2 : (scanModes spec (m :: rest)).2 = true := by
          rw [scanModes]
          show (scanModesAux spec (m :: rest) none false).2 = true
          rw [scanModesAux]
          rw [if_neg (by simp [hm])]
          exact scanModesAux_snd_true spec rest none
        exact Prod.ext h1 h2
      rw [run_capture_setup]
      rw [hs]
      rfl

/-- Closed witness of C6 at a concrete no-match input. -/
theorem mode_scan_first_match_witness :
    run_capture_setup ⟨(400, 400), 120⟩ [⟨200, 200, 30⟩] []
        [("brightness", 1)]
      = .ok (none, applyControls [] [("brightness", 1)]) :=
  mode_scan_first_match.2 ⟨(400, 400), 120⟩ [⟨200, 200, 30⟩] []
    [("brightness", 1)] (by decide) (by decide)

/-- C9: when the first available mode matches the configured values
exactly, `controls_by_name` is never assigned before the control loop,
so with at least one configured override the loop raises `NameError`:
`_run_capture` lets it escape and the worker setup aborts, while
`_restart_cap_device` catches it in the enclosing handler, sleeps one
second and skips all remaining setup. -/
theorem first_mode_match_name_error (spec : CameraSpec) (m : CaptureMode)
    (modes : List CaptureMode) (controls : List UvcControl)
    (overrides : List (String × Int))
    (hmatch : modeMatches spec m = true) (hov : overrides ≠ []) :
    (scanModes spec (m :: modes)).2 = false
    ∧ run_capture_setup spec (m :: modes) controls overrides
        = .error .nameError
    ∧ restart_cap_device spec (m :: modes) controls overrides
        = .caughtSleep [] := by
  have hs : scanModes spec (m :: modes) = (some m, false) := by
    rw [scanModes, scanModesAux]
    rw [if_pos (by simp [hmatch])]
  have hoe : overrides.isEmpty = false := by
    cases overrides with
    | nil => exact absurd rfl hov
    | cons o rest => rfl
  refine ⟨by rw [hs], ?_, ?_⟩
  · rw [run_capture_setup, hs]
    simp [hoe]
  · rw [restart_cap_device, hs]
    simp [hoe]

/-- Closed witness of C9 at a concrete input. -/
theorem first_mode_match_name_error_witness :
    run_capture_setup ⟨(400, 400), 120⟩ [⟨400, 400, 120⟩] [] [("gain", 2)]
      = .error .nameError :=
  (first_mode_match_name_error ⟨(400, 400), 120⟩ ⟨400, 400, 120⟩ [] []
    [("gain", 2)] (by decide) (by decide)).2.1

/-- Controls present on the demo device: three valid names, each
accepting every value. -/
def demoControls : List UvcControl :=
  [⟨"brightness", fun _ => true⟩, ⟨"contrast", fun _ => true⟩,
   ⟨"sharpness", fun _ => true⟩]

/-- C5 (evaluation at the failing input): with one invalid control name
among three valid ones, `_run_capture` logs the failure, applies all
three valid controls and completes, but `_restart_cap_device` applies
only the overrides preceding the invalid name: its failure log itself
raises (print to `file=True`), the enclosing handler catches the
exception, sleeps one second and abandons the remaining controls. -/
theorem control_override_divergence :
    run_capture_setup ⟨(400, 400), 120⟩ [⟨200, 200, 30⟩] demoControls
        [("brightness", 1), ("bogus", 5), ("contrast", 2),
         ("sharpness", 3)]
      = .ok (none,
        [.applied "brightness" 1, .logged "bogus" 5,
         .applied "contrast" 2, .applied "sharpness" 3])
    ∧ restart_cap_device ⟨(400, 400), 120⟩ [⟨200, 200, 30⟩] demoControls
        [("brightness", 1), ("bogus", 5), ("contrast", 2),
         ("sharpness", 3)]
      = .caughtSleep [("brightness", 1)] := by
  constructor <;> rfl

/-- Outcome of one `cap.get_frame` call, as distinguished by the except
clauses of the two `_get_frame` versions. -/
inductive ReadResult
  | ok (f : UvcFrame)
  | timeout
  | initError
  | streamError
  | nameError
  | attrError
  deriving DecidableEq, Repr

/-- Effect of one worker frame step on its environment. -/
inductive WorkerAction
  | enqueue (msg : QueueMsg)
  | logOnly
  | noop
  | reopen
  | raised
  deriving DecidableEq, Repr

/-- Source `_get_frame` of producer.py (lines 43-62): a received frame is
enqueued with its arrival time; `TimeoutError` is silently passed over;
driver init and stream faults are printed and the loop continues; any
other exception is not caught and escapes the worker loop. No branch
reopens the device. -/
def get_frame_producer (camera_name : String) (fmt : VideoFormatEnum)
    (toa : Int) : ReadResult → WorkerAction
  | .ok f =>
    .enqueue ⟨camera_name, f.timestamp, f.index, getBufferFn fmt f, toa⟩
  | .timeout => .noop
  | .initError => .logOnly
  | .streamError => .logOnly
  | .nameError => .raised
  | .attrError => .raised

/-- Source `PupilUvcHandler._get_frame` (handler.py lines 104-120): driver init
and stream faults are printed only; `TimeoutError`, `NameError` and
`AttributeError` are handled together by printing and calling
`_restart_cap_device`, a full device reopen. -/
def get_frame_handler (camera_name : String) (fmt : VideoFormatEnum)
    (toa : Int) : ReadResult → WorkerAction
  | .ok f =>
    .enqueue ⟨camera_name, f.timestamp, f.index, getBufferFn fmt f, toa⟩
  | .timeout => .reopen
  | .initError => .logOnly
  | .streamError => .logOnly
  | .nameError => .reopen
  | .attrError => .reopen

/-- C4 (counterexample): in the handler worker a read timeout is not a
no-op: it triggers a full device reopen. -/
theorem timeout_triggers_reopen_in_handler :
    get_frame_handler "eye0" VideoFormatEnum.MJPEG 0 ReadResult.timeout
      = WorkerAction.reopen := rfl

/-- C4 (amended): in the producer worker a read timeout is a no-op with
nothing enqueued and no branch at all reopening the device, and init and
stream faults only log; in the handler worker a timeout is grouped with
`NameError` and `AttributeError` and triggers a full device reopen. -/
theorem get_frame_fault_handling :
    ∀ (cam : String) (fmt : VideoFormatEnum) (toa : Int),
      get_frame_producer cam fmt toa .timeout = .noop
      ∧ get_frame_producer cam fmt toa .initError = .logOnly
      ∧ get_frame_producer cam fmt toa .streamError = .logOnly
      ∧ get_frame_producer cam fmt toa .nameError = .raised
      ∧ get_frame_producer cam fmt toa .attrError = .raised
      ∧ (∀ f, get_frame_producer cam fmt toa (.ok f)
          = .enqueue ⟨cam, f.timestamp, f.index, getBufferFn fmt f, toa⟩)
      ∧ get_frame_handler cam fmt toa .timeout = .reopen
      ∧ get_frame_handler cam fmt toa .nameError = .reopen
      ∧ get_frame_handler cam fmt toa .attrError = .reopen
      ∧ get_frame_handler cam fmt toa .initError = .logOnly
      ∧ get_frame_handler cam fmt toa .streamError = .logOnly := by
  intro cam fmt toa
  exact ⟨rfl, rfl, rfl, rfl, rfl, fun f => rfl, rfl, rfl, rfl, rfl, rfl⟩

/-- C7: the buffer extraction selected once from the pixel format takes
the jpeg buffer as bytes for MJPEG and the corresponding decoded plane
for BGR and YUV, and for every unrecognized format value it yields no
payload on every frame, without raising. -/
theorem buffer_extraction_by_format :
    ∀ f : UvcFrame,
      getBufferFn VideoFormatEnum.MJPEG f
          = some (Payload.jpegBytes f.jpeg_buffer)
      ∧ getBufferFn VideoFormatEnum.BGR f = some (Payload.bgrPlane f.bgr)
      ∧ getBufferFn VideoFormatEnum.YUV f = some (Payload.yuvPlane f.yuv)
      ∧ ∀ n : Nat, getBufferFn (VideoFormatEnum.other n) f = none := by
  intro f
  exact ⟨rfl, rfl, rfl, fun n => rfl⟩

/-- A spawned capture worker process, as created in
`PupilUvcProducer._connect` (producer.py lines 171-191). -/
structure WorkerHandle where
  camera : String
  deriving DecidableEq, Repr

/-- Source `PupilUvcProducer._connect`: spawns one `_run_capture` process per
camera of the mapping and returns `True` immediately. No per-camera
ready signal is created, passed to `_run_capture`, or waited on; the
in-code TODO notes that the connection confirmation is unimplemented. -/
def producer_connect (cams : List String) : List WorkerHandle × Bool :=
  (cams.map (fun c => ⟨c⟩), true)

/-- C3 (evaluation): `_connect` returns true for every camera mapping
without consulting or awaiting any per-camera ready signal. -/
theorem connect_returns_true_unconditionally :
    ∀ cams : List String,
      (producer_connect cams).2 = true
      ∧ (producer_connect cams).1 = cams.map (fun c => ⟨c⟩) := by
  intro cams
  exact ⟨rfl, rfl⟩

inductive CoordError
  | parseFault
  deriving DecidableEq, Repr

/-- Result of one `_process_data` poll step. -/
inductive PollOutcome
  | published (tag : String) (record : String × FrameOut)
  | noData (sentEndPacket : Bool)
  deriving DecidableEq, Repr

/-- Source `PupilUvcProducer._process_data` (producer.py lines 196-209). The
bounded queue wait is modelled by its outcome: `none` is the `Empty`
timeout, `some msg` a dequeued record. Modelled from the spec: the
`_is_continue_capture` flag and `_send_end_packet` belong to the base
`Producer` class (hermes.base.nodes.producer), which is outside this
tree; the spec describes them as the end-of-stream decision taken after
a stop request. On timeout the except branch possibly sends the end
packet and returns normally with no output; a parsing exception would
propagate to the caller. -/
def process_data (is_continue_capture : Bool) (st : CoordState)
    (queued : Option QueueMsg) :
    Except CoordError (CoordState × PollOutcome) :=
  match queued with
  | none => .ok (st, .noData (!is_continue_capture))
  | some msg =>
    match coordStep st msg with
    | none => .error .parseFault
    | some (st1, out) => .ok (st1, .published "glasses.data" out)

/-- C8: on a queue timeout `_process_data` returns normally with a
neutral no-data outcome and an unchanged parsing state, never an
exception to its caller. -/
theorem process_data_timeout_neutral :
    ∀ (b : Bool) (st : CoordState),
      process_data b st none = .ok (st, .noData (!b)) := by
  intro b st
  rfl
